import Mathlib

/-!
Verification of the metric-transformation and classification pipeline of the
Environmental Impact Explorer (src/app.py): unit conversion, input validation,
data cleaning, percentile classification, and the main-screen control flow.

Numeric values are embedded as rationals; a possibly-missing (NaN) dataset
value is embedded as `Option ℚ` with `none` standing for NaN.  Fallible
computations (dictionary lookup, `numpy.percentile` on an empty array, Python
`float(...)` parsing) are embedded as `Option`-returning functions.
-/

/-- Embedding of `convert_power_to_kwh_per_year` (src/app.py lines 23-43):
converts a power value to kWh/year; unrecognized units fall through to the
final `else` branch and yield 0. -/
def convert_power_to_kwh_per_year (value : ℚ) (unit : String) : ℚ :=
  if unit = "kWh/yr" then value
  else if unit = "kWh/mo" then value * 12
  else if unit = "kW" then value * 8760
  else if unit = "MW" then value * 1000 * 8760
  else 0

/-- Embedding of `convert_water_to_liters_per_year` (src/app.py lines 45-67):
converts a water value to liters/year; the literal 3.78541 is embedded as the
rational 378541/100000; unrecognized units yield 0. -/
def convert_water_to_liters_per_year (value : ℚ) (unit : String) : ℚ :=
  if unit = "L/yr" then value
  else if unit = "L/mo" then value * 12
  else if unit = "L/s" then value * 31536000
  else if unit = "gpm" then value * 525600 * (378541 / 100000)
  else if unit = "gal/mo" then value * 12 * (378541 / 100000)
  else 0

/-- Error type of the unit-conversion contract as the spec states it
(section 4.3 and section 7 of spec.md). -/
inductive UnitError where
  | UnknownUnit
deriving DecidableEq

/-- Modelled from the spec: `normalizePower` following the power unit
table of spec.md section 4.3 word for word, including the `UnknownUnit` failure
for unrecognized units.  No such error path exists in the source (which
returns 0); this definition exists to be compared with
`convert_power_to_kwh_per_year`. -/
def normalizePower (value : ℚ) (unit : String) : Except UnitError ℚ :=
  if unit = "kWh/yr" then Except.ok value
  else if unit = "kWh/mo" then Except.ok (value * 12)
  else if unit = "kW" then Except.ok (value * 8760)
  else if unit = "MW" then Except.ok (value * 1000 * 8760)
  else Except.error UnitError.UnknownUnit

/-- Modelled from the spec: `normalizeWater` following the water unit
table of spec.md section 4.3 word for word, including the `UnknownUnit` failure
for unrecognized units; to be compared with
`convert_water_to_liters_per_year`. -/
def normalizeWater (value : ℚ) (unit : String) : Except UnitError ℚ :=
  if unit = "L/yr" then Except.ok value
  else if unit = "L/mo" then Except.ok (value * 12)
  else if unit = "L/s" then Except.ok (value * 31536000)
  else if unit = "gpm" then Except.ok (value * 525600 * (378541 / 100000))
  else if unit = "gal/mo" then Except.ok (value * 12 * (378541 / 100000))
  else Except.error UnitError.UnknownUnit

/-- Model of the Python string method `strip()`: removes leading and trailing
whitespace characters. -/
def pyStrip (s : String) : String :=
  String.mk (((s.data.dropWhile Char.isWhitespace).reverse.dropWhile
    Char.isWhitespace).reverse)

/-- Value of a list of decimal digit characters read as a natural number. -/
def digitsVal (cs : List Char) : ℕ :=
  cs.foldl (fun a c => a * 10 + (c.toNat - 48)) 0

/-- Splits a character list at the first occurrence of the decimal point,
returning the part before it and, when a point is present, the part after. -/
def splitDot : List Char → List Char × Option (List Char)
  | [] => ([], none)
  | c :: r =>
    if c = '.' then ([], some r)
    else
      let p := splitDot r
      (c :: p.1, p.2)

/-- Model of the Python builtin `float(...)` on plain decimal notation: an
optional sign followed by digits with an optional fractional part, with
surrounding whitespace allowed; `none` models the `ValueError` raised on any
other input.  (Exponent, infinity and NaN spellings, also accepted by the
builtin, are not needed by the validation claims and are not modelled.) -/
def pyFloat (s : String) : Option ℚ :=
  let t := (pyStrip s).data
  let sgn : ℚ := match t with
    | '-' :: _ => -1
    | _ => 1
  let body : List Char := match t with
    | '-' :: r => r
    | '+' :: r => r
    | r => r
  let p := splitDot body
  match p.2 with
  | none =>
    if p.1 ≠ [] ∧ p.1.all Char.isDigit then some (sgn * digitsVal p.1) else none
  | some fp =>
    if (p.1 ≠ [] ∨ fp ≠ []) ∧ p.1.all Char.isDigit ∧ fp.all Char.isDigit then
      some (sgn * ((digitsVal p.1 : ℚ) + (digitsVal fp : ℚ) / (10 : ℚ) ^ fp.length))
    else none

/-- Embedding of `validate_numeric_input` (src/app.py lines 69-91).  The
source returns a pair `(is_valid, numeric_value)` and reports failures through
a side-effecting `st.error(message)` call; the embedding returns the pair
together with the optionally emitted message.  Empty or whitespace-only input
returns `(false, 0)` with no message (the distinct "not provided" state). -/
def validate_numeric_input (value : String) (field_name : String) :
    (Bool × ℚ) × Option String :=
  if pyStrip value = "" then ((false, 0), none)
  else
    match pyFloat value with
    | some numeric_value =>
      if numeric_value < 0 then
        ((false, 0), some (field_name ++ " must be a positive number"))
      else ((true, numeric_value), none)
    | none => ((false, 0), some (field_name ++ " must be a valid number"))

/-- The four parallel arrays loaded by `load_data` (src/app.py lines 94-119),
one entry per county; a `none` metric entry models a NaN in the source data. -/
structure Dataset where
  AWAREUSCF : List (Option ℚ)
  EFkgkWh : List (Option ℚ)
  EWIF : List (Option ℚ)
  CountyFIPS : List ℕ

/-- Embedding of the `metric_map` dictionary lookup in
`create_environmental_map` (src/app.py lines 290-297); an unknown key models
the KeyError as `none`. -/
def metric_map (data : Dataset) (metric_option : String) : Option (List (Option ℚ)) :=
  if metric_option = "carbon footprint" then some data.EFkgkWh
  else if metric_option = "scope 1 & 2 water footprint" then some data.EWIF
  else if metric_option = "water scarcity footprint" then some data.AWAREUSCF
  else none

/-- Model of the Python string method `zfill(5)`: left-pads with the digit 0
to length 5. -/
def zfill5 (s : String) : String :=
  if 5 ≤ s.length then s
  else String.mk (List.replicate (5 - s.length) '0') ++ s

/-- Embedding of the FIPS-code formatting `str(int(c)).zfill(5)`
(src/app.py line 302). -/
def fips_strings (fips : List ℕ) : List String :=
  fips.map (fun c => zfill5 (toString c))

/-- Embedding of `df.dropna()` (src/app.py line 310) over the fips/value
table: removes rows whose value is NaN. -/
def dropna (df : List (String × Option ℚ)) : List (String × Option ℚ) :=
  df.filter (fun p => p.2.isSome)

/-- Embedding of the row filter `df[df["value"] > 0]` (src/app.py line 311);
a NaN value compares as not greater than 0, as in pandas. -/
def filter_positive (df : List (String × Option ℚ)) : List (String × Option ℚ) :=
  df.filter (fun p => decide ((0 : ℚ) < p.2.getD 0))

/-- Embedding of the closure `categorize_value` (src/app.py lines 318-324)
with the captured percentile cutoffs made explicit parameters. -/
def categorize_value (low_percentile high_percentile val : ℚ) : String :=
  if val ≤ low_percentile then "Low Impact"
  else if val ≤ high_percentile then "Medium Impact"
  else "High Impact"

/-- The ascending sort performed inside `numpy.percentile`. -/
def sortVals (l : List ℚ) : List ℚ :=
  l.insertionSort (· ≤ ·)

/-- Linear interpolation into a sorted value list at fractional index `idx`:
the value at index `⌊idx⌋`, moved toward the next element (index clamped to
the last position) by the fractional part.  This is the interpolation step of
`numpy.percentile` with its default method. -/
def interpAt (s : List ℚ) (idx : ℚ) : ℚ :=
  s.getD ⌊idx⌋.toNat 0 +
    (idx - (⌊idx⌋.toNat : ℚ)) *
      (s.getD (min (⌊idx⌋.toNat + 1) (s.length - 1)) 0 - s.getD ⌊idx⌋.toNat 0)

/-- Embedding of `numpy.percentile(a, p)` with the default linear-interpolation
method: index `p / 100 * (n - 1)` into the sorted values.  On an empty array
numpy raises IndexError, embedded as `none`. -/
def np_percentile (a : List ℚ) (p : ℚ) : Option ℚ :=
  if a.isEmpty then none
  else some (interpAt (sortVals a) (p / 100 * ((a.length : ℚ) - 1)))

/-- Embedding of the classification core of `create_environmental_map`
(src/app.py lines 280-326): metric lookup, FIPS formatting, NaN and
non-positive row removal, 33rd/66th percentile cutoffs, and per-row
categorization.  The `state` argument is accepted and, exactly as in the
source, never used.  The result rows are (fips, value, category); the
display-only rounding of line 327 and all plotting are outside the modelled
pipeline.  `none` models an uncaught exception (unknown metric key, or the
numpy IndexError raised by a percentile of an empty value set). -/
def create_environmental_map (data : Dataset) (metric_option : String)
    (state : String) : Option (List (String × ℚ × String)) :=
  (metric_map data metric_option).bind (fun values =>
    let df := (fips_strings data.CountyFIPS).zip values
    let df2 := filter_positive (dropna df)
    (np_percentile (df2.map (fun p => p.2.getD 0)) 33).bind (fun low_percentile =>
      (np_percentile (df2.map (fun p => p.2.getD 0)) 66).bind (fun high_percentile =>
        some (df2.map (fun p =>
          (p.1, p.2.getD 0,
            categorize_value low_percentile high_percentile (p.2.getD 0)))))))

/-- Modelled from the spec: the state-to-county-id mapping is supplied by the
external state-selection UI and is out of scope (spec.md section 4.2); per the
spec, a county belongs to a state when its county identifier matches by
prefix/lookup.  We model membership as: the first two digits of the 5-digit
county id equal the state FIPS code (Alabama is 01, California is 06). -/
def countyInState (stateFips : String) (countyId : String) : Bool :=
  countyId.take 2 = stateFips

/-- Which actions the Make-Plot branch of `main` performs (src/app.py lines
242-259): whether each text input was passed to `validate_numeric_input`,
whether the map was created, and whether `calculate_facility_impact` ran. -/
structure MainActions where
  power_checked : Bool
  water_checked : Bool
  map_made : Bool
  impact_calculated : Bool
deriving DecidableEq

/-- Embedding of the Make-Plot branch of `main` (src/app.py lines 242-259):
validity flags default to true, each provided (non-blank) input is validated,
the map is created when both flags are valid, and the facility impact is
computed only when additionally both inputs are provided. -/
def main_make_plot (power_value water_value : String) : MainActions :=
  let power_provided := if pyStrip power_value = "" then false else true
  let water_provided := if pyStrip water_value = "" then false else true
  let power_valid := if pyStrip power_value = "" then true
    else (validate_numeric_input power_value "Power consumption").1.1
  let water_valid := if pyStrip water_value = "" then true
    else (validate_numeric_input water_value "Water consumption").1.1
  { power_checked := power_provided
    water_checked := water_provided
    map_made := power_valid && water_valid
    impact_calculated := power_valid && water_valid && power_provided && water_provided }

/-- A two-county dataset: county 01001 (Autauga, Alabama) with carbon
intensity 1 and county 06037 (Los Angeles, California) with carbon
intensity 2. -/
def twoStateData : Dataset where
  AWAREUSCF := [some 1, some 1]
  EFkgkWh := [some 1, some 2]
  EWIF := [some 1, some 1]
  CountyFIPS := [1001, 6037]

/-- A five-county dataset whose carbon values are the outlier example of the spec:
[1, 1, 1, 1, 100]. -/
def outlierData : Dataset where
  AWAREUSCF := [some 1, some 1, some 1, some 1, some 1]
  EFkgkWh := [some 1, some 1, some 1, some 1, some 100]
  EWIF := [some 1, some 1, some 1, some 1, some 1]
  CountyFIPS := [1001, 1003, 1005, 1007, 1009]

/-- The cleaning example of the spec: a fips/value table carrying the values
[0, -5, 3, 7, NaN]. -/
def cleaningDemo : List (String × Option ℚ) :=
  [("01001", some 0), ("01003", some (-5)), ("01005", some 3),
   ("01007", some 7), ("01009", none)]

/-- A dataset whose carbon values are all invalid (0 or NaN), so that no
county survives cleaning. -/
def allInvalidData : Dataset where
  AWAREUSCF := [some 1, some 1]
  EFkgkWh := [some 0, none]
  EWIF := [some 1, some 1]
  CountyFIPS := [1001, 1003]

/-- In a list sorted ascending, the element at a lower index (read with
default 0) is at most the element at a higher in-range index. -/
theorem sorted_getD_mono {s : List ℚ} (hs : s.Sorted (· ≤ ·)) {a b : ℕ}
    (hab : a ≤ b) (hb : b < s.length) : s.getD a 0 ≤ s.getD b 0 := by
  have ha : a < s.length := Nat.lt_of_le_of_lt hab hb
  rw [List.getD_eq_getElem s 0 ha, List.getD_eq_getElem s 0 hb]
  have h2 : (⟨a, ha⟩ : Fin s.length) ≤ ⟨b, hb⟩ := hab
  simpa using hs.rel_get_of_le h2

/-- Linear interpolation into a sorted non-empty list is monotone in the
fractional index over the index range [0, length - 1]. -/
theorem interpAt_mono {s : List ℚ} (hs : s.Sorted (· ≤ ·)) (hne : s ≠ [])
    {x y : ℚ} (hx : 0 ≤ x) (hxy : x ≤ y) (hy : y ≤ (s.length : ℚ) - 1) :
    interpAt s x ≤ interpAt s y := by
  unfold interpAt
  have hy0 : 0 ≤ y := le_trans hx hxy
  have hlen : 0 < s.length := List.length_pos.mpr hne
  have hxfl : ((⌊x⌋.toNat : ℤ)) = ⌊x⌋ := Int.toNat_of_nonneg (Int.floor_nonneg.mpr hx)
  have hyfl : ((⌊y⌋.toNat : ℤ)) = ⌊y⌋ := Int.toNat_of_nonneg (Int.floor_nonneg.mpr hy0)
  set i := ⌊x⌋.toNat with hidef
  set j := ⌊y⌋.toNat with hjdef
  have hix : (i : ℚ) ≤ x := by
    have h := Int.floor_le x
    rw [← hxfl] at h
    exact_mod_cast h
  have hxi : x < (i : ℚ) + 1 := by
    have h := Int.lt_floor_add_one x
    rw [← hxfl] at h
    exact_mod_cast h
  have hjy : (j : ℚ) ≤ y := by
    have h := Int.floor_le y
    rw [← hyfl] at h
    exact_mod_cast h
  have hij : i ≤ j := Int.toNat_le_toNat (Int.floor_le_floor hxy)
  have hcast : ((s.length - 1 : ℕ) : ℚ) = (s.length : ℚ) - 1 := by
    rw [Nat.cast_sub hlen, Nat.cast_one]
  have hjN : j ≤ s.length - 1 := by
    have h1 : (j : ℚ) ≤ ((s.length - 1 : ℕ) : ℚ) := by
      rw [hcast]; exact le_trans hjy hy
    exact_mod_cast h1
  have hiN : i ≤ s.length - 1 := le_trans hij hjN
  have hsub : s.length - 1 < s.length := Nat.sub_lt hlen Nat.one_pos
  have hjlt : j < s.length := Nat.lt_of_le_of_lt hjN hsub
  have hminI : min (i + 1) (s.length - 1) < s.length :=
    Nat.lt_of_le_of_lt (min_le_right _ _) hsub
  have hminJ : min (j + 1) (s.length - 1) < s.length :=
    Nat.lt_of_le_of_lt (min_le_right _ _) hsub
  have hiMin : i ≤ min (i + 1) (s.length - 1) := le_min (Nat.le_succ i) hiN
  have hjMin : j ≤ min (j + 1) (s.length - 1) := le_min (Nat.le_succ j) hjN
  have hAB : s.getD i 0 ≤ s.getD (min (i + 1) (s.length - 1)) 0 :=
    sorted_getD_mono hs hiMin hminI
  have hCD : s.getD j 0 ≤ s.getD (min (j + 1) (s.length - 1)) 0 :=
    sorted_getD_mono hs hjMin hminJ
  rcases Nat.lt_or_ge i j with hlt | hge
  · have hBC : s.getD (min (i + 1) (s.length - 1)) 0 ≤ s.getD j 0 :=
      sorted_getD_mono hs (le_trans (min_le_left _ _) hlt) hjlt
    have h1 : s.getD i 0 +
        (x - (i : ℚ)) * (s.getD (min (i + 1) (s.length - 1)) 0 - s.getD i 0) ≤
        s.getD (min (i + 1) (s.length - 1)) 0 := by
      nlinarith [sub_nonneg.mpr hAB, sub_nonneg.mpr hix]
    have h2 : s.getD j 0 ≤ s.getD j 0 +
        (y - (j : ℚ)) * (s.getD (min (j + 1) (s.length - 1)) 0 - s.getD j 0) := by
      nlinarith [sub_nonneg.mpr hCD, sub_nonneg.mpr hjy]
    linarith
  · have heq : i = j := le_antisymm hij hge
    rw [heq]
    nlinarith [sub_nonneg.mpr hCD, sub_nonneg.mpr hjy, hxy]

/-- Evaluation rule for `np_percentile` on a non-empty list, given the floor
of the fractional index and the interpolated value. -/
theorem np_percentile_eval (a : List ℚ) (p : ℚ) (i : ℕ) (r : ℚ)
    (hne : a.isEmpty = false)
    (hfl : ⌊p / 100 * ((a.length : ℚ) - 1)⌋ = (i : ℤ))
    (hr : (sortVals a).getD i 0 +
        (p / 100 * ((a.length : ℚ) - 1) - (i : ℚ)) *
          ((sortVals a).getD (min (i + 1) ((sortVals a).length - 1)) 0 -
            (sortVals a).getD i 0) = r) :
    np_percentile a p = some r := by
  unfold np_percentile interpAt
  rw [hne]
  rw [if_neg Bool.false_ne_true]
  rw [hfl]
  simp only [Int.toNat_natCast]
  rw [hr]

/-- Evaluation rule for `create_environmental_map`: once the metric lookup,
the cleaned table, and the two percentile cutoffs are known, the result is the
categorized table. -/
theorem create_environmental_map_eval (data : Dataset)
    (metric_option state : String) (values : List (Option ℚ))
    (df2 : List (String × Option ℚ)) (lo hi : ℚ)
    (hm : metric_map data metric_option = some values)
    (hdf : filter_positive (dropna ((fips_strings data.CountyFIPS).zip values)) = df2)
    (hlo : np_percentile (df2.map (fun p => p.2.getD 0)) 33 = some lo)
    (hhi : np_percentile (df2.map (fun p => p.2.getD 0)) 66 = some hi) :
    create_environmental_map data metric_option state =
      some (df2.map (fun p =>
        (p.1, p.2.getD 0, categorize_value lo hi (p.2.getD 0)))) := by
  unfold create_environmental_map
  rw [hm]
  dsimp only [Option.bind]
  rw [hdf, hlo, hhi]

/-- When the cleaned table is empty, the pipeline yields no result: the
percentile computation fails as numpy raises on an empty array. -/
theorem create_environmental_map_empty (data : Dataset)
    (metric_option state : String) (values : List (Option ℚ))
    (hm : metric_map data metric_option = some values)
    (hdf : filter_positive (dropna ((fips_strings data.CountyFIPS).zip values)) = []) :
    create_environmental_map data metric_option state = none := by
  unfold create_environmental_map
  rw [hm]
  dsimp only [Option.bind]
  rw [hdf]
  rfl

/-- C5: for every non-empty cleaned value set, the 33rd-percentile cutoff
`lowCut` and the 66th-percentile cutoff `highCut`, computed with
linear-interpolation percentile semantics (index p/100*(n-1) into the sorted
values, interpolating between the bracketing elements), satisfy
lowCut ≤ highCut. -/
theorem c5_low_cutoff_le_high_cutoff (l : List ℚ) (hne : l ≠ []) :
    ∃ lowCut highCut, np_percentile l 33 = some lowCut ∧
      np_percentile l 66 = some highCut ∧ lowCut ≤ highCut := by
  have hemp : l.isEmpty = false := by simpa using hne
  have hn : 0 < l.length := List.length_pos.mpr hne
  have hc : (1 : ℚ) ≤ (l.length : ℚ) := by exact_mod_cast hn
  have hc0 : (0 : ℚ) ≤ (l.length : ℚ) - 1 := by linarith
  refine ⟨interpAt (sortVals l) (33 / 100 * ((l.length : ℚ) - 1)),
    interpAt (sortVals l) (66 / 100 * ((l.length : ℚ) - 1)), ?_, ?_, ?_⟩
  · unfold np_percentile
    rw [hemp]
    rw [if_neg Bool.false_ne_true]
  · unfold np_percentile
    rw [hemp]
    rw [if_neg Bool.false_ne_true]
  · have hslen : (sortVals l).length = l.length := List.length_insertionSort _ l
    have hsne : sortVals l ≠ [] := by
      intro hcon
      rw [hcon] at hslen
      exact hne (List.length_eq_zero.mp hslen.symm)
    apply interpAt_mono (List.sorted_insertionSort _ l) hsne
    · exact mul_nonneg (by norm_num) hc0
    · nlinarith
    · simp only [List.length_insertionSort]
      nlinarith

/-- C2 counterexample: for a unit tag outside the enumerated tables the
source conversion functions return the numeric result 0 instead of failing,
while the spec-modelled normalizers fail with UnknownUnit. -/
theorem c2_counterexample :
    convert_power_to_kwh_per_year 5 "BTU" = 0 ∧
    convert_water_to_liters_per_year 5 "BTU" = 0 ∧
    normalizePower 5 "BTU" = Except.error UnitError.UnknownUnit ∧
    normalizeWater 5 "BTU" = Except.error UnitError.UnknownUnit :=
  ⟨rfl, rfl, rfl, rfl⟩

/-- C2 (amended): for every value and every unit tag outside the enumerated
tables, the source conversion functions return 0 (no error is signalled);
the spec-modelled normalizers fail with UnknownUnit on the same input. -/
theorem c2_unknown_unit_returns_zero (v : ℚ) (u : String)
    (h1 : u ≠ "kWh/yr") (h2 : u ≠ "kWh/mo") (h3 : u ≠ "kW") (h4 : u ≠ "MW")
    (h5 : u ≠ "L/yr") (h6 : u ≠ "L/mo") (h7 : u ≠ "L/s") (h8 : u ≠ "gpm")
    (h9 : u ≠ "gal/mo") :
    convert_power_to_kwh_per_year v u = 0 ∧
    convert_water_to_liters_per_year v u = 0 ∧
    normalizePower v u = Except.error UnitError.UnknownUnit ∧
    normalizeWater v u = Except.error UnitError.UnknownUnit := by
  unfold convert_power_to_kwh_per_year convert_water_to_liters_per_year
    normalizePower normalizeWater
  simp [h1, h2, h3, h4, h5, h6, h7, h8, h9]

/-- C2 witness: the amended statement evaluated at value 7 and the concrete
unrecognized unit tag "furlong". -/
theorem c2_unknown_unit_returns_zero_witness :
    convert_power_to_kwh_per_year 7 "furlong" = 0 ∧
    convert_water_to_liters_per_year 7 "furlong" = 0 ∧
    normalizePower 7 "furlong" = Except.error UnitError.UnknownUnit ∧
    normalizeWater 7 "furlong" = Except.error UnitError.UnknownUnit :=
  c2_unknown_unit_returns_zero 7 "furlong" (by decide) (by decide) (by decide)
    (by decide) (by decide) (by decide) (by decide) (by decide) (by decide)

/-- C5 witness: the cutoff ordering instantiated at the concrete cleaned
value set [3, 7]. -/
theorem c5_low_cutoff_le_high_cutoff_witness :
    ∃ lowCut highCut, np_percentile [(3 : ℚ), 7] 33 = some lowCut ∧
      np_percentile [(3 : ℚ), 7] 66 = some highCut ∧ lowCut ≤ highCut :=
  c5_low_cutoff_le_high_cutoff [3, 7] (by simp)

/-- C6: the power conversion table: kWh/yr passes the value through, kWh/mo
multiplies by 12, kW by 8760, MW by 1000 and 8760; in particular 5 kW
converts to 43800 kWh/year. -/
theorem c6_power_conversion_table (v : ℚ) :
    convert_power_to_kwh_per_year v "kWh/yr" = v ∧
    convert_power_to_kwh_per_year v "kWh/mo" = v * 12 ∧
    convert_power_to_kwh_per_year v "kW" = v * 8760 ∧
    convert_power_to_kwh_per_year v "MW" = v * 1000 * 8760 ∧
    convert_power_to_kwh_per_year 5 "kW" = 43800 :=
  ⟨rfl, rfl, rfl, rfl, by simp [convert_power_to_kwh_per_year]; norm_num⟩

/-- C7: the water conversion table with its exact literal constants: L/yr
passes through, L/mo multiplies by 12, L/s by 31536000, gpm by 525600 and
3.78541, gal/mo by 12 and 3.78541; in particular 2 gpm converts to
2 * 525600 * 3.78541 liters/year. -/
theorem c7_water_conversion_table (v : ℚ) :
    convert_water_to_liters_per_year v "L/yr" = v ∧
    convert_water_to_liters_per_year v "L/mo" = v * 12 ∧
    convert_water_to_liters_per_year v "L/s" = v * 31536000 ∧
    convert_water_to_liters_per_year v "gpm" = v * 525600 * (378541 / 100000) ∧
    convert_water_to_liters_per_year v "gal/mo" = v * 12 * (378541 / 100000) ∧
    convert_water_to_liters_per_year 2 "gpm" = 2 * 525600 * (378541 / 100000) :=
  ⟨rfl, rfl, rfl, rfl, rfl, rfl⟩

/-- C1: the state selector is ignored by the classification pipeline.  With
the selector set to Alabama, the classified output still contains the county
record 06037 (Los Angeles County, California), which does not belong to
Alabama (state fips 01): `create_environmental_map` accepts the state
argument, documented as "Selected state (or USA for all)", and never applies
any county filter. -/
theorem c1_state_filter_not_applied :
    create_environmental_map twoStateData "carbon footprint" "Alabama" =
      some [("01001", 1, "Low Impact"), ("06037", 2, "High Impact")] ∧
    countyInState "01" "06037" = false := by
  constructor
  · have hdf : filter_positive (dropna
        ((fips_strings twoStateData.CountyFIPS).zip twoStateData.EFkgkWh)) =
        [("01001", some 1), ("06037", some 2)] := by decide
    have hmap : ([("01001", some 1), ("06037", some 2)] :
        List (String × Option ℚ)).map (fun p => p.2.getD 0) = [1, 2] := by decide
    have hlen : ((List.length [(1 : ℚ), 2] : ℕ) : ℚ) = 2 := by norm_num
    have hs : sortVals [(1 : ℚ), 2] = [1, 2] := by decide
    have hg0 : List.getD [(1 : ℚ), 2] 0 0 = 1 := by decide
    have hg1 : List.getD [(1 : ℚ), 2]
        (min (0 + 1) (List.length [(1 : ℚ), 2] - 1)) 0 = 2 := by decide
    have h33 : np_percentile [(1 : ℚ), 2] 33 = some (133 / 100) := by
      refine np_percentile_eval _ _ 0 _ rfl ?_ ?_
      · rw [hlen, Int.floor_eq_iff]
        norm_num
      · rw [hs, hg0, hg1, hlen]
        norm_num
    have h66 : np_percentile [(1 : ℚ), 2] 66 = some (166 / 100) := by
      refine np_percentile_eval _ _ 0 _ rfl ?_ ?_
      · rw [hlen, Int.floor_eq_iff]
        norm_num
      · rw [hs, hg0, hg1, hlen]
        norm_num
    have hres := create_environmental_map_eval twoStateData "carbon footprint"
      "Alabama" twoStateData.EFkgkWh [("01001", some 1), ("06037", some 2)]
      (133 / 100) (166 / 100) rfl hdf (by rw [hmap]; exact h33)
      (by rw [hmap]; exact h66)
    rw [hres]
    norm_num [categorize_value]
  · decide

/-- C3: buckets are assigned by value ≤ lowCut → Low, lowCut < value ≤
highCut → Medium, value > highCut → High, with boundary ties resolving to the
lower bucket; and on the value set [1, 1, 1, 1, 100] the four 1 values are
classified Low and 100 is classified High. -/
theorem c3_bucket_assignment (lowCut highCut v : ℚ) (h : lowCut ≤ highCut) :
    (v ≤ lowCut → categorize_value lowCut highCut v = "Low Impact") ∧
    ((lowCut < v ∧ v ≤ highCut) → categorize_value lowCut highCut v = "Medium Impact") ∧
    (highCut < v → categorize_value lowCut highCut v = "High Impact") ∧
    create_environmental_map outlierData "carbon footprint" "USA" =
      some [("01001", 1, "Low Impact"), ("01003", 1, "Low Impact"),
        ("01005", 1, "Low Impact"), ("01007", 1, "Low Impact"),
        ("01009", 100, "High Impact")] := by
  refine ⟨?_, ?_, ?_, ?_⟩
  · intro hv
    simp [categorize_value, hv]
  · rintro ⟨h1, h2⟩
    simp [categorize_value, not_le.mpr h1, h2]
  · intro hv
    have h1 : ¬ v ≤ lowCut := not_le.mpr (lt_of_le_of_lt h hv)
    have h2 : ¬ v ≤ highCut := not_le.mpr hv
    simp [categorize_value, h1, h2]
  · have hdf : filter_positive (dropna
        ((fips_strings outlierData.CountyFIPS).zip outlierData.EFkgkWh)) =
        [("01001", some 1), ("01003", some 1), ("01005", some 1),
         ("01007", some 1), ("01009", some 100)] := by decide
    have hmap : ([("01001", some 1), ("01003", some 1), ("01005", some 1),
        ("01007", some 1), ("01009", some 100)] :
        List (String × Option ℚ)).map (fun p => p.2.getD 0) =
        [1, 1, 1, 1, 100] := by decide
    have hlen : ((List.length [(1 : ℚ), 1, 1, 1, 100] : ℕ) : ℚ) = 5 := by norm_num
    have hs : sortVals [(1 : ℚ), 1, 1, 1, 100] = [1, 1, 1, 1, 100] := by decide
    have h33 : np_percentile [(1 : ℚ), 1, 1, 1, 100] 33 = some 1 := by
      refine np_percentile_eval _ _ 1 _ rfl ?_ ?_
      · rw [hlen, Int.floor_eq_iff]
        norm_num
      · rw [hs]
        have hg0 : List.getD [(1 : ℚ), 1, 1, 1, 100] 1 0 = 1 := by decide
        have hg1 : List.getD [(1 : ℚ), 1, 1, 1, 100]
            (min (1 + 1) (List.length [(1 : ℚ), 1, 1, 1, 100] - 1)) 0 = 1 := by decide
        rw [hg0, hg1, hlen]
        norm_num
    have h66 : np_percentile [(1 : ℚ), 1, 1, 1, 100] 66 = some 1 := by
      refine np_percentile_eval _ _ 2 _ rfl ?_ ?_
      · rw [hlen, Int.floor_eq_iff]
        norm_num
      · rw [hs]
        have hg0 : List.getD [(1 : ℚ), 1, 1, 1, 100] 2 0 = 1 := by decide
        have hg1 : List.getD [(1 : ℚ), 1, 1, 1, 100]
            (min (2 + 1) (List.length [(1 : ℚ), 1, 1, 1, 100] - 1)) 0 = 1 := by decide
        rw [hg0, hg1, hlen]
        norm_num
    have hres := create_environmental_map_eval outlierData "carbon footprint"
      "USA" outlierData.EFkgkWh
      [("01001", some 1), ("01003", some 1), ("01005", some 1),
       ("01007", some 1), ("01009", some 100)] 1 1 rfl hdf
      (by rw [hmap]; exact h33) (by rw [hmap]; exact h66)
    rw [hres]
    norm_num [categorize_value]

/-- C3 witness: the bucket rule applied at cutoffs lowCut = highCut = 1 and
value 100. -/
theorem c3_bucket_assignment_witness :
    categorize_value 1 1 100 = "High Impact" :=
  (c3_bucket_assignment 1 1 100 le_rfl).2.2.1 (by norm_num)

/-- C4: cleaning keeps exactly the rows whose value is a finite number
greater than 0 (NaN rows and rows with value ≤ 0 are dropped before the
percentile computation), and the value set [0, -5, 3, 7, NaN] reduces to
[3, 7]. -/
theorem c4_cleaning_drops_nan_and_nonpositive
    (df : List (String × Option ℚ)) (row : String × Option ℚ) :
    (row ∈ filter_positive (dropna df) ↔
      row ∈ df ∧ ∃ v : ℚ, row.2 = some v ∧ 0 < v) ∧
    (filter_positive (dropna cleaningDemo)).map (fun p => p.2.getD 0) = [3, 7] := by
  constructor
  · obtain ⟨rid, rv⟩ := row
    simp only [filter_positive, dropna, List.mem_filter, decide_eq_true_eq]
    cases rv with
    | none => simp
    | some v => simp [and_assoc]
  · decide

/-- C4 witness: the cleaning membership rule instantiated at the demo table
and its retained row ("01005", 3). -/
theorem c4_cleaning_drops_nan_and_nonpositive_witness :
    ("01005", (some 3 : Option ℚ)) ∈ filter_positive (dropna cleaningDemo) ↔
      ("01005", (some 3 : Option ℚ)) ∈ cleaningDemo ∧
        ∃ v : ℚ, (some 3 : Option ℚ) = some v ∧ 0 < v :=
  (c4_cleaning_drops_nan_and_nonpositive cleaningDemo ("01005", some 3)).1

/-- C9 counterexample: when no county survives cleaning (all metric values
are 0 or NaN), the pipeline does not produce an empty classified sequence
with an EmptyResult signal — it aborts (numpy.percentile raises IndexError on
an empty array, embedded as `none`). -/
theorem c9_counterexample_no_empty_signal :
    create_environmental_map allInvalidData "carbon footprint" "USA" = none :=
  create_environmental_map_empty allInvalidData "carbon footprint" "USA"
    allInvalidData.EFkgkWh rfl (by decide)

/-- C9 (amended): when zero counties remain after filtering and cleaning,
classification yields no result at all: the percentile computation fails (an
uncaught numpy IndexError); there is no EmptyResult signal and no empty
sequence in the code. -/
theorem c9_empty_cleaned_is_error (data : Dataset) (metric_option state : String)
    (values : List (Option ℚ))
    (hm : metric_map data metric_option = some values)
    (hempty : filter_positive (dropna
      ((fips_strings data.CountyFIPS).zip values)) = []) :
    create_environmental_map data metric_option state = none :=
  create_environmental_map_empty data metric_option state values hm hempty

/-- C9 witness: the amended statement evaluated at the all-invalid dataset
with the Alabama selector. -/
theorem c9_empty_cleaned_is_error_witness :
    create_environmental_map allInvalidData "carbon footprint" "Alabama" = none :=
  c9_empty_cleaned_is_error allInvalidData "carbon footprint" "Alabama"
    allInvalidData.EFkgkWh rfl (by decide)

/-- C10: the facility-impact computation runs only when both text inputs are
non-blank after stripping; when exactly one is provided, that input is still
validated but `calculate_facility_impact` never runs. -/
theorem c10_impact_needs_both_inputs (p w : String) :
    ((main_make_plot p w).impact_calculated = true →
      pyStrip p ≠ "" ∧ pyStrip w ≠ "") ∧
    (pyStrip p ≠ "" → pyStrip w = "" →
      (main_make_plot p w).power_checked = true ∧
      (main_make_plot p w).impact_calculated = false) ∧
    (pyStrip p = "" → pyStrip w ≠ "" →
      (main_make_plot p w).water_checked = true ∧
      (main_make_plot p w).impact_calculated = false) := by
  unfold main_make_plot
  by_cases hp : pyStrip p = "" <;> by_cases hw : pyStrip w = "" <;> simp [hp, hw]

/-- C10 witness: with power "5" provided and water blank, power is validated
and the facility impact is not computed. -/
theorem c10_impact_needs_both_inputs_witness :
    (main_make_plot "5" "").power_checked = true ∧
    (main_make_plot "5" "").impact_calculated = false :=
  (c10_impact_needs_both_inputs "5" "").2.1 (by decide) (by decide)

/-- C8: validation yields the distinct "not provided" state (no error
message) for blank input, fails with the negative-number message for "-3",
fails with the not-a-number message for "abc", succeeds with value 0 for "0",
and the two failures are distinguishable from each other and from "not
provided". -/
theorem c8_validation_states (field s : String) (hs : pyStrip s = "") :
    validate_numeric_input s field = ((false, 0), none) ∧
    validate_numeric_input "-3" field =
      ((false, 0), some (field ++ " must be a positive number")) ∧
    validate_numeric_input "abc" field =
      ((false, 0), some (field ++ " must be a valid number")) ∧
    validate_numeric_input "0" field = ((true, 0), none) ∧
    validate_numeric_input "-3" "Power consumption" ≠
      validate_numeric_input "abc" "Power consumption" ∧
    validate_numeric_input "-3" "Power consumption" ≠
      validate_numeric_input "" "Power consumption" ∧
    validate_numeric_input "abc" "Power consumption" ≠
      validate_numeric_input "" "Power consumption" := by
  have hm3 : pyFloat "-3" = some (-3) := by
    have h : pyFloat "-3" = some ((-1 : ℚ) * ((3 : ℕ) : ℚ)) := rfl
    rw [h]
    norm_num
  have h0 : pyFloat "0" = some 0 := by
    have h : pyFloat "0" = some ((1 : ℚ) * ((0 : ℕ) : ℚ)) := rfl
    rw [h]
    norm_num
  have habc : pyFloat "abc" = none := rfl
  have hnp : ∀ f : String, validate_numeric_input "" f = ((false, 0), none) := by
    intro f
    unfold validate_numeric_input
    rw [if_pos (show pyStrip "" = "" by decide)]
  have hneg : ∀ f : String, validate_numeric_input "-3" f =
      ((false, 0), some (f ++ " must be a positive number")) := by
    intro f
    unfold validate_numeric_input
    rw [if_neg (by decide), hm3]
    dsimp only
    rw [if_pos (show (-3 : ℚ) < 0 by norm_num)]
  have hnan : ∀ f : String, validate_numeric_input "abc" f =
      ((false, 0), some (f ++ " must be a valid number")) := by
    intro f
    unfold validate_numeric_input
    rw [if_neg (by decide), habc]
  have hzero : ∀ f : String, validate_numeric_input "0" f = ((true, 0), none) := by
    intro f
    unfold validate_numeric_input
    rw [if_neg (by decide), h0]
    dsimp only
    rw [if_neg (show ¬ (0 : ℚ) < 0 by norm_num)]
  refine ⟨?_, hneg field, hnan field, hzero field, ?_, ?_, ?_⟩
  · unfold validate_numeric_input
    rw [if_pos hs]
  · rw [hneg, hnan]
    simp
  · rw [hneg, hnp]
    simp
  · rw [hnan, hnp]
    simp

/-- C8 witness: the validation states evaluated with field name "Power
consumption" and the whitespace-only input " ". -/
theorem c8_validation_states_witness :
    validate_numeric_input " " "Power consumption" = ((false, 0), none) ∧
    validate_numeric_input "-3" "Power consumption" =
      ((false, 0), some ("Power consumption" ++ " must be a positive number")) ∧
    validate_numeric_input "abc" "Power consumption" =
      ((false, 0), some ("Power consumption" ++ " must be a valid number")) ∧
    validate_numeric_input "0" "Power consumption" = ((true, 0), none) ∧
    validate_numeric_input "-3" "Power consumption" ≠
      validate_numeric_input "abc" "Power consumption" ∧
    validate_numeric_input "-3" "Power consumption" ≠
      validate_numeric_input "" "Power consumption" ∧
    validate_numeric_input "abc" "Power consumption" ≠
      validate_numeric_input "" "Power consumption" :=
  c8_validation_states "Power consumption" " " (by decide)
